import Mathlib

/-!
Verification of the MentraOS bridge channel (`src/channel.ts`).

The development shallowly embeds the per-session voice-gate state machine
of `FaceClawAppServer.onSession`, the helper functions `estimateTtsDurationMs`
and `isEcho`, the wake-word regex, the stop-command regex, the text
extraction, and the inbound dispatch pipeline `processInboundMessage`.
Timestamps are naturals (milliseconds); each `Date.now()` read that matters
is a parameter.  External collaborators (agent dispatch, session store,
audio speak) are modelled as oracle parameters describing their outcome;
fallible calls are oracles whose failure outcome follows the JavaScript
semantics of an un-caught rejection at the corresponding `await`.
-/

set_option maxRecDepth 100000

namespace MentraBridge

/-- ASCII portion of the JavaScript whitespace class used by the regexes
in the source (the transcription strings at issue only carry ASCII
whitespace). -/
def jsIsWs (c : Char) : Bool :=
  c = ' ' || c = '\t' || c = '\n' || c = '\r' || c = '\x0b' || c = '\x0c'

/-- Both-ends whitespace trim on a character list, as `String.prototype.trim`. -/
def trimWs (l : List Char) : List Char :=
  ((l.dropWhile jsIsWs).reverse.dropWhile jsIsWs).reverse

/-- `text.trim()` of the source. -/
def jsTrim (s : String) : String :=
  String.mk (trimWs s.toList)

/-- Lower-cased character list of a string, as the `i` regex flag /
`toLowerCase` (ASCII). -/
def lowerChars (s : String) : List Char :=
  s.toList.map Char.toLower

/-- Single pass behind `splitWs`: `acc` holds the current field in
reverse, `prevWs` records whether the previous character belonged to a
whitespace run (a field is emitted only at the first character of a
run). -/
def splitWsGo : List Char → List Char → Bool → List (List Char)
  | [], acc, _ => [acc.reverse]
  | c :: rest, acc, prevWs =>
    if jsIsWs c then
      if prevWs then splitWsGo rest acc true
      else acc.reverse :: splitWsGo rest [] true
    else splitWsGo rest (c :: acc) false

/-- JavaScript `s.split(/\s+/)` on character lists: fields are the
(possibly empty) segments between maximal whitespace runs; the empty
string yields one empty field. -/
def splitWs (l : List Char) : List (List Char) :=
  splitWsGo l [] false

/-- Number of fields of `text.split(/\s+/)`, the word count used by the
TTS duration estimate. -/
def wordCount (s : String) : Nat :=
  (splitWs s.toList).length

/-- `estimateTtsDurationMs` of the source:
`Math.max(2000, text.split(/\s+/).length * 130 + 1000)`. -/
def estimateTtsDurationMs (text : String) : Nat :=
  max 2000 (wordCount text * 130 + 1000)

/-- Lower-case letters and digits, the characters kept (besides
whitespace) by the echo normalizer `replace(/[^a-z0-9\s]/g, "")`. -/
def isAlnumLower (c : Char) : Bool :=
  ('a' ≤ c && c ≤ 'z') || ('0' ≤ c && c ≤ '9')

/-- The echo normalizer `norm` of the source:
`s.toLowerCase().replace(/[^a-z0-9\s]/g, "").trim()`, as a character
list.  Interior whitespace is kept as is; only the ends are trimmed. -/
def normEchoChars (s : String) : List Char :=
  trimWs ((lowerChars s).filter (fun c => isAlnumLower c || jsIsWs c))

/-- JavaScript `hay.includes(needle)`: does `needle` occur contiguously
inside `hay`? -/
def containsSub : List Char → List Char → Bool
  | hay, needle =>
    if needle.isPrefixOf hay then true
    else
      match hay with
      | [] => false
      | _ :: t => containsSub t needle

/-- `isEcho` of the source, with the session echo text passed
explicitly: substring either way on the normalized strings, or word
overlap strictly above 0.6 (rendered exactly as `10 * overlap > 6 * n`;
the word counts in play are far too small for double rounding to diverge
from the rational comparison). -/
def isEcho (recentTtsText text : String) : Bool :=
  if recentTtsText = "" then false
  else
    let ttsNorm := normEchoChars recentTtsText
    let textNorm := normEchoChars text
    if containsSub ttsNorm textNorm || containsSub textNorm ttsNorm then true
    else
      let ttsWords := splitWs ttsNorm
      let textWords := splitWs textNorm
      if textWords.length = 0 then false
      else decide (10 * (textWords.filter (fun w => ttsWords.contains w)).length
                    > 6 * textWords.length)

/-- The stop-command test `/^stop\.?$/i.test(raw)`. -/
def stopTest (raw : String) : Bool :=
  lowerChars raw = "stop".toList || lowerChars raw = "stop.".toList

/-- The character class `[\s,.]` of the wake pattern (and of the
post-strip `/^[,.\s]+/`). -/
def isSepChar (c : Char) : Bool :=
  jsIsWs c || c = ',' || c = '.'

/-- JavaScript regex word characters, deciding the `\b` at the end of
the wake pattern. -/
def isWordChar (c : Char) : Bool :=
  ('a' ≤ c && c ≤ 'z') || ('A' ≤ c && c ≤ 'Z') || ('0' ≤ c && c ≤ '9') || c = '_'

/-- Strip a literal pattern from the front of a character list. -/
def stripLit : List Char → List Char → Option (List Char)
  | [], l => some l
  | p :: ps, c :: cs => if c = p then stripLit ps cs else none
  | _ :: _, [] => none

/-- The alternation `(?:hey|hay|a|eh)` of the wake pattern, returning
the consumed length and the rest.  The four alternatives are pairwise
incompatible at any position, so committing to the first that matches
is exact first-match regex semantics. -/
def stripWakeWord (l : List Char) : Option (Nat × List Char) :=
  match stripLit "hey".toList l with
  | some r => some (3, r)
  | none =>
    match stripLit "hay".toList l with
    | some r => some (3, r)
    | none =>
      match stripLit "a".toList l with
      | some r => some (1, r)
      | none =>
        match stripLit "eh".toList l with
        | some r => some (2, r)
        | none => none

/-- The alternation `(?:mentra|menta|mentor|mencia|mantra|menorah)`,
likewise pairwise incompatible at any position. -/
def stripNameWord (l : List Char) : Option (Nat × List Char) :=
  match stripLit "mentra".toList l with
  | some r => some (6, r)
  | none =>
    match stripLit "menta".toList l with
    | some r => some (5, r)
    | none =>
      match stripLit "mentor".toList l with
      | some r => some (6, r)
      | none =>
        match stripLit "mencia".toList l with
        | some r => some (6, r)
        | none =>
          match stripLit "mantra".toList l with
          | some r => some (6, r)
          | none =>
            match stripLit "menorah".toList l with
            | some r => some (7, r)
            | none => none

/-- Tail of the wake pattern after the opening `(?:^|[\s,.])`:
`\s*(?:hey|hay|a|eh)\s+(?:...names...)\b`.  Returns the consumed length.
The greedy whitespace runs never backtrack because no alternative can
start with a whitespace character. -/
def coreMatch (l : List Char) : Option Nat :=
  let ws1 := (l.takeWhile jsIsWs).length
  let r1 := l.dropWhile jsIsWs
  match stripWakeWord r1 with
  | none => none
  | some (wl, r2) =>
    let ws2 := (r2.takeWhile jsIsWs).length
    let r3 := r2.dropWhile jsIsWs
    if ws2 = 0 then none
    else
      match stripNameWord r3 with
      | none => none
      | some (nl, r4) =>
        match r4 with
        | [] => some (ws1 + wl + ws2 + nl)
        | c :: _ => if isWordChar c then none else some (ws1 + wl + ws2 + nl)

/-- Leftmost match of the wake pattern on a lower-cased character list:
scans start positions in order; at position 0 the `^` alternative is
tried before consuming a `[\s,.]` character.  Returns start index and
matched length. -/
def findWake : List Char → Nat → Option (Nat × Nat)
  | l, i =>
    let here : Option Nat :=
      match (if i = 0 then coreMatch l else none) with
      | some n => some n
      | none =>
        match l with
        | c :: rest => if isSepChar c then (coreMatch rest).map (· + 1) else none
        | [] => none
    match here with
    | some n => some (i, n)
    | none =>
      match l with
      | [] => none
      | _ :: rest => findWake rest (i + 1)

/-- `wakePattern.test(raw)` of the source. -/
def wakeTest (raw : String) : Bool :=
  (findWake (lowerChars raw) 0).isSome

/-- `/^[,.\s]+/` strip: drop the leading run of commas, periods and
whitespace. -/
def stripLeadingSep (l : List Char) : List Char :=
  l.dropWhile isSepChar

/-- The wake-word text extraction of the source:
`raw.replace(wakePattern, "").replace(/^[,.\s]+/, "").trim() || "Hey"`.
The first `replace` removes the leftmost match of the pattern, wherever
it occurs in the string. -/
def extractCommand (raw : String) : String :=
  match findWake (lowerChars raw) 0 with
  | none => raw
  | some (i, n) =>
    let cs := raw.toList
    let removed := cs.take i ++ cs.drop (i + n)
    let r := trimWs (stripLeadingSep removed)
    if r.isEmpty then "Hey" else String.mk r

/-- The per-session mutable closure state of `onSession`:
`listenWindowUntil`, `speakingUntil`, `recentTtsText`. -/
structure ListenState where
  listenWindowUntil : Nat
  speakingUntil : Nat
  recentTtsText : String
deriving DecidableEq

/-- `LISTEN_WINDOW_MS` of the source. -/
def LISTEN_WINDOW_MS : Nat := 30000

/-- Outcome of the gating portion of the transcription handler
(lines 505-544 of `channel.ts`), before any dispatch. -/
inductive GateDecision where
  | notActionable
  | stopCmd
  | suppressedSpeaking
  | suppressedEcho
  | noWakeNoWindow
  | accepted (command : String)
deriving DecidableEq

/-- The gating portion of the transcription handler: early return on
non-final or blank text, stop command, speaking suppression, echo
suppression, wake-word / listen-window filter, and command extraction.
`now` is the `Date.now()` reading of the gate phase.  Returns the
decision together with the closure state after the gate. -/
def voiceGate (st : ListenState) (now : Nat) (isFinal : Bool) (text : String) :
    GateDecision × ListenState :=
  if isFinal = false ∨ jsTrim text = "" then (.notActionable, st)
  else if stopTest (jsTrim text) = true then (.stopCmd, ⟨0, 0, ""⟩)
  else if now < st.speakingUntil then (.suppressedSpeaking, st)
  else if isEcho st.recentTtsText (jsTrim text) = true then
    (.suppressedEcho, { st with recentTtsText := "" })
  else if wakeTest (jsTrim text) = false ∧ ¬ (now < st.listenWindowUntil) then
    (.noWakeNoWindow, st)
  else
    (.accepted (if wakeTest (jsTrim text) then extractCommand (jsTrim text) else jsTrim text),
     st)

/-- The fixed strings spoken by the handlers. -/
def ackText : String := "Hmm"

def apologyVoice : String := "Sorry, I encountered an error processing your request."

def apologyPhoto : String := "Sorry, I couldn't analyze that photo."

def photoPlaceholder : String := "[Photo from smart glasses]"

/-- Observable actions of one handler invocation: whether
`session.audio.stopAudio()` ran, whether the acknowledgment `"Hmm"` was
spoken on track 1, the command text handed to `processInboundMessage`
(if any), and the texts whose speaking was attempted on track 2, in
order. -/
structure Effects where
  stoppedAudio : Bool := false
  ackSpoken : Bool := false
  dispatched : Option String := none
  spokenTrack2 : List String := []
deriving DecidableEq

def noEffects : Effects := {}

/-- Oracle for one `processInboundMessage` invocation as seen by the
handlers: it threw, resolved with no reply, or resolved with reply
text. -/
inductive PipelineOutcome where
  | threw
  | noReply
  | reply (text : String)
deriving DecidableEq

/-- The full transcription handler (lines 505-587), the per-utterance
try/catch included.  `outcome` is the result of the awaited
`processInboundMessage`; `speakOk` tells whether the awaited track-2
speak of the reply resolved; `nowSpeak` is the `Date.now()` reading
taken when `speakingUntil` is set and `nowAfterSpeak` the one taken
after the successful speak, when the listen window is extended.  The
handler never rethrows: the catch converts a failure into a spoken
apology (whose own speak failure is swallowed by the inner catch). -/
def handleTranscription (st : ListenState) (now : Nat) (isFinal : Bool) (text : String)
    (outcome : PipelineOutcome) (speakOk : Bool) (nowSpeak nowAfterSpeak : Nat) :
    ListenState × Effects :=
  match voiceGate st now isFinal text with
  | (.notActionable, st') => (st', noEffects)
  | (.stopCmd, st') => (st', { stoppedAudio := true })
  | (.suppressedSpeaking, st') => (st', noEffects)
  | (.suppressedEcho, st') => (st', noEffects)
  | (.noWakeNoWindow, st') => (st', noEffects)
  | (.accepted cmd, st') =>
    match outcome with
    | .threw =>
      (st', { ackSpoken := true, dispatched := some cmd, spokenTrack2 := [apologyVoice] })
    | .noReply =>
      (st', { ackSpoken := true, dispatched := some cmd })
    | .reply r =>
      let st1 : ListenState :=
        { st' with recentTtsText := r, speakingUntil := nowSpeak + estimateTtsDurationMs r }
      if speakOk then
        ({ st1 with listenWindowUntil := nowAfterSpeak + LISTEN_WINDOW_MS },
         { ackSpoken := true, dispatched := some cmd, spokenTrack2 := [r] })
      else
        (st1, { ackSpoken := true, dispatched := some cmd, spokenTrack2 := [r, apologyVoice] })

/-- The photo handler (lines 591-633).  `saveOk` tells whether
`saveMediaBuffer` resolved; `outcome` is the dispatch result.  Note
that this handler never touches the closure ListenState: it neither
sets `recentTtsText` / `speakingUntil` before speaking the reply nor
extends the listen window afterwards. -/
def handlePhoto (st : ListenState) (saveOk : Bool) (outcome : PipelineOutcome)
    (speakOk : Bool) : ListenState × Effects :=
  if saveOk = false then (st, { spokenTrack2 := [apologyPhoto] })
  else
    match outcome with
    | .threw => (st, { dispatched := some photoPlaceholder, spokenTrack2 := [apologyPhoto] })
    | .noReply => (st, { dispatched := some photoPlaceholder })
    | .reply r =>
      if speakOk then (st, { dispatched := some photoPlaceholder, spokenTrack2 := [r] })
      else (st, { dispatched := some photoPlaceholder, spokenTrack2 := [r, apologyPhoto] })

/-- One step of the reply-collection callback of
`processInboundMessage`: skip an absent or blank chunk, else append the
trimmed chunk, newline-separated once the accumulator is non-empty. -/
def collectStep (acc : String) (chunk : Option String) : String :=
  match chunk with
  | none => acc
  | some t =>
    if jsTrim t = "" then acc
    else if acc = "" then jsTrim t else acc ++ "\n" ++ jsTrim t

/-- `collectedReply` after the dispatcher delivered the given chunks in
order (`payload.text` may be absent, hence `Option`). -/
def collectedReply (chunks : List (Option String)) : String :=
  chunks.foldl collectStep ""

/-- The return value of `processInboundMessage`:
`collectedReply || undefined`. -/
def pipelineReturn (chunks : List (Option String)) : Option String :=
  let c := collectedReply chunks
  if c = "" then none else some c

/-- Oracles for the fallible steps of `processInboundMessage`.
`recordSessionError` is an error reported through the `onRecordError`
callback of `recordInboundSession` (logged, call resolves);
`recordMetaOk`, `activityOk`, `dispatchOk` tell whether
`recordSessionMetaFromInbound`, `activity.record` and the reply
dispatch complete without throwing — none of these three is wrapped in
any try/catch or error callback in the source. -/
structure InboundOracles where
  recordSessionError : Option String
  recordMetaOk : Bool
  activityOk : Bool
  dispatchOk : Bool
  chunks : List (Option String)

/-- Observable trace of one `processInboundMessage` run: the errors
logged via callbacks, whether the dispatch step was reached, and the
result (`Except.error` models an exception escaping the function). -/
structure InboundTrace where
  loggedErrors : List String
  dispatchRan : Bool
  result : Except String (Option String)

/-- `processInboundMessage` (lines 300-435), reduced to its
error-propagation and reply-collection behavior.  Steps 1-5 are pure
formatting; step 6 routes failures to `onRecordError` and resolves;
steps 7 and 8 are bare awaited/synchronous calls, so a failure there
escapes the function before the dispatch of step 9 runs. -/
def processInboundMessage (o : InboundOracles) : InboundTrace :=
  let logged := match o.recordSessionError with
    | some e => [e]
    | none => []
  if o.recordMetaOk = false then
    { loggedErrors := logged, dispatchRan := false,
      result := .error "recordSessionMetaFromInbound" }
  else if o.activityOk = false then
    { loggedErrors := logged, dispatchRan := false, result := .error "activity.record" }
  else if o.dispatchOk = false then
    { loggedErrors := logged, dispatchRan := true, result := .error "dispatchReply" }
  else
    { loggedErrors := logged, dispatchRan := true, result := .ok (pipelineReturn o.chunks) }

/-- A punctuation character, for reading the claim wording
"optionally with trailing punctuation". -/
def isPunctChar (c : Char) : Bool :=
  c = '.' || c = '!' || c = '?' || c = ',' || c = ';' || c = ':'

/-- Claim-side reading of the stop condition of C2: the trimmed text is
"stop", case-insensitively, optionally followed by trailing punctuation
characters. -/
def claimStopUtterance (s : String) : Bool :=
  decide ((lowerChars (jsTrim s)).take 4 = "stop".toList) &&
    ((lowerChars (jsTrim s)).drop 4).all isPunctChar

/-- Claim-side reading of the text extraction of C4: the extracted
command is the text with the matched prefix (the initial segment of the
text through the end of the wake-pattern match) and the
punctuation/space following it removed, or the default greeting token
if that leaves nothing. -/
def claimExtractCommand (raw : String) : String :=
  match findWake (lowerChars raw) 0 with
  | none => raw
  | some (i, n) =>
    let r := trimWs (stripLeadingSep (raw.toList.drop (i + n)))
    if r.isEmpty then "Hey" else String.mk r

/-- Non-empty fields of a whitespace split: the words of a character
list. -/
def wordsOf (l : List Char) : List (List Char) :=
  (splitWs l).filter (fun w => !w.isEmpty)

/-- Claim-side normalization of C3: lowercase, strip non-alphanumeric
characters, and collapse whitespace (runs of whitespace become a single
space, ends trimmed). -/
def claimNormCollapse (s : String) : List Char :=
  match wordsOf ((lowerChars s).filter (fun c => isAlnumLower c || jsIsWs c)) with
  | [] => []
  | w :: ws => ws.foldl (fun a b => a ++ ' ' :: b) w

/-- Claim-side reading of the echo check of C3, using the collapsing
normalization: reject exactly when either normalized string contains
the other, or the candidate-word overlap fraction exceeds 0.6. -/
def claimIsEchoCollapse (recentTtsText text : String) : Bool :=
  if recentTtsText = "" then false
  else
    let a := claimNormCollapse recentTtsText
    let b := claimNormCollapse text
    if containsSub a b || containsSub b a then true
    else
      let ttsWords := wordsOf a
      let textWords := wordsOf b
      if textWords.length = 0 then false
      else decide (10 * (textWords.filter (fun w => ttsWords.contains w)).length
                    > 6 * textWords.length)

/-- Declarative characterization of the echo check actually
implemented: the two strings normalized by lowercasing, stripping
non-alphanumeric characters and trimming the ends (interior whitespace
untouched); rejection iff one normalized string occurs inside the other
or strictly more than 0.6 of the candidate words lie in the TTS word
set. -/
def EchoCond (recentTtsText text : String) : Prop :=
  recentTtsText ≠ "" ∧
    (normEchoChars text <:+: normEchoChars recentTtsText ∨
     normEchoChars recentTtsText <:+: normEchoChars text ∨
     6 * (splitWs (normEchoChars text)).length <
       10 * ((splitWs (normEchoChars text)).filter
         (fun w => (splitWs (normEchoChars recentTtsText)).contains w)).length)

/-- Newline join of a list of reply fragments. -/
def joinLines : List String → String
  | [] => ""
  | x :: xs => xs.foldl (fun a b => a ++ "\n" ++ b) x

/-- Claim-side reading of the reply collection of C7: every non-empty
delivered chunk, in arrival order, newline-joined; the no-reply outcome
when no non-empty chunk was produced. -/
def claimCollectedReply (chunks : List (Option String)) : Option String :=
  match (chunks.filterMap id).filter (fun c => c != "") with
  | [] => none
  | l => some (joinLines l)

/-- The delivered chunks that survive trimming: trimmed text of every
chunk whose trimmed text is non-empty, in arrival order. -/
def trimmedChunks : List (Option String) → List String
  | [] => []
  | none :: t => trimmedChunks t
  | some s :: t =>
    if jsTrim s = "" then trimmedChunks t else jsTrim s :: trimmedChunks t

/-- Amended reading of the reply collection: the trimmed non-blank
chunks, newline-joined; the no-reply outcome when every chunk was
absent or whitespace-only. -/
def amendedCollectedReply (chunks : List (Option String)) : Option String :=
  match trimmedChunks chunks with
  | [] => none
  | l => some (joinLines l)

/-! Helper lemmas shared by the claim theorems. -/

theorem stopTest_nonempty {text : String} (h : stopTest (jsTrim text) = true) :
    jsTrim text ≠ "" := by
  intro heq
  rw [heq] at h
  exact absurd h (by decide)

theorem splitWsGo_ne_nil (l : List Char) : ∀ (acc : List Char) (b : Bool),
    splitWsGo l acc b ≠ [] := by
  induction l with
  | nil => intro acc b; simp [splitWsGo]
  | cons c rest ih =>
    intro acc b
    unfold splitWsGo
    by_cases h : jsIsWs c
    · rw [if_pos h]
      cases b with
      | true => exact ih acc true
      | false => simp
    · rw [if_neg h]
      exact ih (c :: acc) false

theorem splitWs_ne_nil (l : List Char) : splitWs l ≠ [] :=
  splitWsGo_ne_nil l [] false

theorem containsSub_iff (hay needle : List Char) :
    containsSub hay needle = true ↔ needle <:+: hay := by
  induction hay with
  | nil =>
    unfold containsSub
    by_cases h : needle.isPrefixOf ([] : List Char) = true
    · rw [if_pos h]
      simp only [true_iff]
      have : needle <+: [] := List.isPrefixOf_iff_prefix.mp h
      exact this.isInfix
    · rw [if_neg h]
      show false = true ↔ needle <:+: []
      constructor
      · intro hh
        exact absurd hh (by decide)
      · intro hn
        have hn' : needle = [] := List.infix_nil.mp hn
        exact absurd (by simp [hn']) h
  | cons a t ih =>
    unfold containsSub
    by_cases h : needle.isPrefixOf (a :: t) = true
    · rw [if_pos h]
      simp only [true_iff]
      exact (List.isPrefixOf_iff_prefix.mp h).isInfix
    · rw [if_neg h]
      rw [ih, List.infix_cons_iff]
      constructor
      · exact Or.inr
      · rintro (hp | hi)
        · exact absurd (List.isPrefixOf_iff_prefix.mpr hp) h
        · exact hi

theorem voiceGate_notFinal (st : ListenState) (now : Nat) (text : String) :
    voiceGate st now false text = (.notActionable, st) := by
  simp [voiceGate]

theorem voiceGate_blank (st : ListenState) (now : Nat) (b : Bool) (text : String)
    (h : jsTrim text = "") :
    voiceGate st now b text = (.notActionable, st) := by
  simp [voiceGate, h]

theorem voiceGate_stop (st : ListenState) (now : Nat) (text : String)
    (h : stopTest (jsTrim text) = true) :
    voiceGate st now true text = (.stopCmd, ⟨0, 0, ""⟩) := by
  unfold voiceGate
  rw [if_neg (by simp [stopTest_nonempty h]), if_pos h]

theorem voiceGate_speaking (st : ListenState) (now : Nat) (text : String)
    (hne : jsTrim text ≠ "") (hstop : stopTest (jsTrim text) = false)
    (h : now < st.speakingUntil) :
    voiceGate st now true text = (.suppressedSpeaking, st) := by
  unfold voiceGate
  rw [if_neg (by simp [hne]), if_neg (by simp [hstop]), if_pos h]

theorem voiceGate_echo (st : ListenState) (now : Nat) (text : String)
    (hne : jsTrim text ≠ "") (hstop : stopTest (jsTrim text) = false)
    (hsp : st.speakingUntil ≤ now)
    (hecho : isEcho st.recentTtsText (jsTrim text) = true) :
    voiceGate st now true text = (.suppressedEcho, { st with recentTtsText := "" }) := by
  unfold voiceGate
  rw [if_neg (by simp [hne]), if_neg (by simp [hstop]),
    if_neg (Nat.not_lt.mpr hsp), if_pos hecho]

theorem voiceGate_noWake (st : ListenState) (now : Nat) (text : String)
    (hne : jsTrim text ≠ "") (hstop : stopTest (jsTrim text) = false)
    (hsp : st.speakingUntil ≤ now)
    (hecho : isEcho st.recentTtsText (jsTrim text) = false)
    (hwake : wakeTest (jsTrim text) = false)
    (hwin : st.listenWindowUntil ≤ now) :
    voiceGate st now true text = (.noWakeNoWindow, st) := by
  unfold voiceGate
  rw [if_neg (by simp [hne]), if_neg (by simp [hstop]),
    if_neg (Nat.not_lt.mpr hsp), if_neg (by simp [hecho]),
    if_pos ⟨hwake, Nat.not_lt.mpr hwin⟩]

theorem voiceGate_accepted (st : ListenState) (now : Nat) (text : String)
    (hne : jsTrim text ≠ "") (hstop : stopTest (jsTrim text) = false)
    (hsp : st.speakingUntil ≤ now)
    (hecho : isEcho st.recentTtsText (jsTrim text) = false)
    (hgate : wakeTest (jsTrim text) = true ∨ now < st.listenWindowUntil) :
    voiceGate st now true text =
      (.accepted (if wakeTest (jsTrim text) then extractCommand (jsTrim text)
                  else jsTrim text), st) := by
  unfold voiceGate
  rw [if_neg (by simp [hne]), if_neg (by simp [hstop]),
    if_neg (Nat.not_lt.mpr hsp), if_neg (by simp [hecho]), if_neg ?_]
  rintro ⟨h1, h2⟩
  rcases hgate with h | h
  · rw [h] at h1
    exact absurd h1 (by decide)
  · exact h2 h

theorem append_newline_ne_empty (a b : String) : a ++ "\n" ++ b ≠ "" := by
  intro h
  have hlen := congrArg String.length h
  rw [String.length_append, String.length_append] at hlen
  have h1 : String.length "\n" = 1 := rfl
  have h0 : String.length "" = 0 := rfl
  omega

theorem joinStepIf_eq (a b : String) (ha : a ≠ "") :
    (if a = "" then b else a ++ "\n" ++ b) = a ++ "\n" ++ b := by
  rw [if_neg ha]

theorem foldl_joinStepIf_eq (l : List String) : ∀ (a : String), a ≠ "" →
    l.foldl (fun x y => if x = "" then y else x ++ "\n" ++ y) a =
      l.foldl (fun x y => x ++ "\n" ++ y) a := by
  induction l with
  | nil => intro a _; rfl
  | cons b t ih =>
    intro a ha
    simp only [List.foldl_cons]
    rw [joinStepIf_eq a b ha]
    exact ih (a ++ "\n" ++ b) (append_newline_ne_empty a b)

theorem foldl_join_ne_empty (l : List String) : ∀ (a : String), a ≠ "" →
    l.foldl (fun x y => x ++ "\n" ++ y) a ≠ "" := by
  induction l with
  | nil => intro a ha; exact ha
  | cons b t ih =>
    intro a _
    simp only [List.foldl_cons]
    exact ih (a ++ "\n" ++ b) (append_newline_ne_empty a b)

theorem collect_fold (chunks : List (Option String)) : ∀ (acc : String),
    chunks.foldl collectStep acc =
      (trimmedChunks chunks).foldl (fun x y => if x = "" then y else x ++ "\n" ++ y) acc := by
  induction chunks with
  | nil => intro acc; rfl
  | cons c t ih =>
    intro acc
    cases c with
    | none =>
      simp only [List.foldl_cons, trimmedChunks]
      exact ih acc
    | some s =>
      simp only [List.foldl_cons, trimmedChunks]
      by_cases hs : jsTrim s = ""
      · rw [if_pos hs]
        have hstep : collectStep acc (some s) = acc := by
          simp [collectStep, hs]
        rw [hstep]
        exact ih acc
      · rw [if_neg hs]
        have hstep : collectStep acc (some s) =
            (if acc = "" then jsTrim s else acc ++ "\n" ++ jsTrim s) := by
          simp [collectStep, hs]
        rw [hstep, List.foldl_cons]
        exact ih _

theorem mem_trimmedChunks_ne_empty :
    ∀ (chunks : List (Option String)) (x : String), x ∈ trimmedChunks chunks → x ≠ "" := by
  intro chunks
  induction chunks with
  | nil => intro x hx; exact absurd hx (by simp [trimmedChunks])
  | cons c t ih =>
    intro x hx
    cases c with
    | none => exact ih x hx
    | some s =>
      simp only [trimmedChunks] at hx
      by_cases hs : jsTrim s = ""
      · rw [if_pos hs] at hx
        exact ih x hx
      · rw [if_neg hs] at hx
        rcases List.mem_cons.mp hx with h | h
        · rw [h]; exact hs
        · exact ih x h

/-! Claim theorems. -/

/-- Claim C1: for every final transcription whose trimmed text is
non-blank, in an active session, if the current time is at or past
`speakingUntil`, the text is not a stop command, the echo check does not
classify it as an echo of `recentTtsText`, and either the text matches
the wake pattern or the current time is strictly before
`listenWindowUntil`, then the Voice Gate accepts the event: a command
text is extracted and dispatched to the agent pipeline. -/
theorem C1_gate_accepts (st : ListenState) (now : Nat) (text : String)
    (outcome : PipelineOutcome) (speakOk : Bool) (t1 t2 : Nat)
    (hne : jsTrim text ≠ "") (hstop : stopTest (jsTrim text) = false)
    (hspeak : st.speakingUntil ≤ now)
    (hecho : isEcho st.recentTtsText (jsTrim text) = false)
    (hgate : wakeTest (jsTrim text) = true ∨ now < st.listenWindowUntil) :
    (voiceGate st now true text).1 =
      .accepted (if wakeTest (jsTrim text) then extractCommand (jsTrim text)
                 else jsTrim text) ∧
    (handleTranscription st now true text outcome speakOk t1 t2).2.dispatched =
      some (if wakeTest (jsTrim text) then extractCommand (jsTrim text)
            else jsTrim text) := by
  have hg := voiceGate_accepted st now text hne hstop hspeak hecho hgate
  constructor
  · rw [hg]
  · unfold handleTranscription
    rw [hg]
    cases outcome with
    | threw => rfl
    | noReply => rfl
    | reply r => cases speakOk <;> rfl

/-- Witness for C1 at a concrete wake-word utterance. -/
theorem C1_witness :
    (handleTranscription ⟨0, 0, ""⟩ 100 true "Hey Mentra what time is it"
        .noReply true 0 0).2.dispatched =
      some (if wakeTest (jsTrim "Hey Mentra what time is it")
            then extractCommand (jsTrim "Hey Mentra what time is it")
            else jsTrim "Hey Mentra what time is it") :=
  (C1_gate_accepts ⟨0, 0, ""⟩ 100 "Hey Mentra what time is it" .noReply true 0 0
    (by decide) (by decide) (by decide) (by decide) (Or.inl (by decide))).2

/-- Claim C2 fails as stated: the source stop regex `/^stop\.?$/i`
admits only an optional trailing period, while the claim admits any
trailing punctuation.  The utterance "stop!" is a stop utterance with
trailing punctuation, yet the handler does not reset the timers (here
`listenWindowUntil` stays 5), does not cancel playback, and treats the
event as an ordinary rejection. -/
theorem C2_counterexample :
    claimStopUtterance "stop!" = true ∧
    handleTranscription ⟨5, 0, ""⟩ 10 true "stop!" .noReply true 0 0 =
      (⟨5, 0, ""⟩, noEffects) := by
  constructor
  · decide
  · decide

/-- Claim C2 amended: for every final transcription whose trimmed text
matches `stop` optionally followed by a single trailing period
(case-insensitively), the Voice Gate handles it with highest priority
regardless of speaking suppression, echo state, wake word, or listen
window: it cancels any in-progress playback, resets `listenWindowUntil`
and `speakingUntil` to 0, clears `recentTtsText`, and dispatches
nothing to the agent pipeline. -/
theorem C2_amended (st : ListenState) (now : Nat) (text : String)
    (outcome : PipelineOutcome) (speakOk : Bool) (t1 t2 : Nat)
    (h : stopTest (jsTrim text) = true) :
    handleTranscription st now true text outcome speakOk t1 t2 =
      (⟨0, 0, ""⟩, { stoppedAudio := true }) := by
  unfold handleTranscription
  rw [voiceGate_stop st now text h]

/-- Witness for C2 amended on "Stop." arriving over a fully loaded
state. -/
theorem C2_witness :
    handleTranscription ⟨12345, 99999, "previous reply"⟩ 7 true " Stop. "
        (.reply "ignored") false 4 9 =
      (⟨0, 0, ""⟩, { stoppedAudio := true }) :=
  C2_amended ⟨12345, 99999, "previous reply"⟩ 7 " Stop. " (.reply "ignored") false 4 9
    (by decide)

/-- Claim C3 fails as stated: the source normalizer does not collapse
interior whitespace (it only lowercases, strips non-alphanumerics and
trims the ends).  With `recentTtsText = "hello - world"` the stripped
form keeps two adjacent spaces, so the candidate "lo world" is not a
substring and its word overlap is 1 of 2; the claimed collapsing check
rejects it, the implemented check does not, and the gate passes the
utterance on to the wake-word filter instead of rejecting it as an
echo. -/
theorem C3_counterexample :
    isEcho "hello - world" "lo world" = false ∧
    claimIsEchoCollapse "hello - world" "lo world" = true ∧
    (voiceGate ⟨0, 0, "hello - world"⟩ 5 true "lo world").1 = .noWakeNoWindow := by
  refine ⟨by decide, by decide, by decide⟩

/-- Claim C3 amended: the echo check normalizes both the candidate and
`recentTtsText` by lowercasing, stripping non-alphanumeric characters
and trimming end whitespace (interior whitespace is not collapsed), and
rejects exactly when either normalized string contains the other or the
fraction of candidate words present in the TTS word set exceeds 0.6; on
an echo rejection the gate clears `recentTtsText` and changes nothing
else; the two concrete weather examples behave as stated. -/
theorem C3_amended :
    (∀ tts text, isEcho tts text = true ↔ EchoCond tts text) ∧
    (∀ (st : ListenState) (now : Nat) (text : String), jsTrim text ≠ "" →
      stopTest (jsTrim text) = false → st.speakingUntil ≤ now →
      isEcho st.recentTtsText (jsTrim text) = true →
      voiceGate st now true text = (.suppressedEcho, { st with recentTtsText := "" })) ∧
    isEcho "the weather today is sunny" "weather today is sunny" = true ∧
    isEcho "the weather today is sunny" "what time is it" = false := by
  refine ⟨?_, voiceGate_echo, by decide, by decide⟩
  intro tts text
  by_cases h : tts = ""
  · simp [isEcho, EchoCond, h]
  · unfold isEcho
    rw [if_neg h]
    by_cases h2 : (containsSub (normEchoChars tts) (normEchoChars text) ||
        containsSub (normEchoChars text) (normEchoChars tts)) = true
    · rw [if_pos h2]
      simp only [true_iff]
      refine ⟨h, ?_⟩
      rcases Bool.or_eq_true _ _ |>.mp h2 with hc | hc
      · exact Or.inl ((containsSub_iff _ _).mp hc)
      · exact Or.inr (Or.inl ((containsSub_iff _ _).mp hc))
    · rw [if_neg h2]
      rw [if_neg (by
        intro hlen
        exact splitWs_ne_nil (normEchoChars text) (List.length_eq_zero.mp hlen))]
      rw [decide_eq_true_iff]
      simp only [Bool.or_eq_true, not_or, Bool.not_eq_true] at h2
      constructor
      · intro hlt
        exact ⟨h, Or.inr (Or.inr hlt)⟩
      · rintro ⟨-, (hc | hc | hlt)⟩
        · exact absurd ((containsSub_iff _ _).mpr hc) (by simp [h2.1])
        · exact absurd ((containsSub_iff _ _).mpr hc) (by simp [h2.2])
        · exact hlt

/-- Witness for C3 amended: the characterization instantiated at the
weather example, and the state effect of an echo rejection at a
concrete state. -/
theorem C3_witness :
    EchoCond "the weather today is sunny" "weather today is sunny" ∧
    voiceGate ⟨0, 3, "four"⟩ 5 true "four" = (.suppressedEcho, ⟨0, 3, ""⟩) :=
  ⟨(C3_amended.1 "the weather today is sunny" "weather today is sunny").mp (by decide),
   C3_amended.2.1 ⟨0, 3, "four"⟩ 5 "four" (by decide) (by decide) (by decide) (by decide)⟩

/-- Claim C4 fails as stated: the wake pattern can match in the middle
of the text, and the post-match cleanup only strips punctuation at the
start of the whole remainder, not at the splice point.  On
"um, hey mentra, what time" the source extracts "um, what time",
whereas the claimed description (text with the matched prefix and the
following punctuation/space removed) yields "what time". -/
theorem C4_counterexample :
    wakeTest "um, hey mentra, what time" = true ∧
    extractCommand "um, hey mentra, what time" = "um, what time" ∧
    claimExtractCommand "um, hey mentra, what time" = "what time" ∧
    extractCommand "um, hey mentra, what time" ≠
      claimExtractCommand "um, hey mentra, what time" := by
  refine ⟨by decide, by decide, by decide, by decide⟩

/-- Claim C4 amended: when the first wake-pattern match starts at the
beginning of the text, the extracted command equals the text with the
matched prefix and the punctuation/space following it removed (the
default greeting token when that leaves nothing); an accepted text that
does not match the wake pattern (the follow-up path inside the listen
window) is used unchanged. -/
theorem C4_amended :
    (∀ (raw : String) (n : Nat), findWake (lowerChars raw) 0 = some (0, n) →
      extractCommand raw = claimExtractCommand raw) ∧
    (∀ (st : ListenState) (now : Nat) (text : String), jsTrim text ≠ "" →
      stopTest (jsTrim text) = false → st.speakingUntil ≤ now →
      isEcho st.recentTtsText (jsTrim text) = false →
      wakeTest (jsTrim text) = false → now < st.listenWindowUntil →
      voiceGate st now true text = (.accepted (jsTrim text), st)) := by
  constructor
  · intro raw n h
    unfold extractCommand claimExtractCommand
    rw [h]
    simp
  · intro st now text hne hstop hsp hecho hwake hwin
    rw [voiceGate_accepted st now text hne hstop hsp hecho (Or.inr hwin), hwake]
    simp

/-- Witness for C4 amended: a wake utterance whose match starts at
position 0, and a concrete follow-up inside the listen window. -/
theorem C4_witness :
    extractCommand "Hey Mentra, what time is it" =
      claimExtractCommand "Hey Mentra, what time is it" ∧
    voiceGate ⟨50, 0, ""⟩ 10 true "what about three" =
      (.accepted "what about three", ⟨50, 0, ""⟩) :=
  ⟨C4_amended.1 "Hey Mentra, what time is it" 10 (by decide),
   C4_amended.2 ⟨50, 0, ""⟩ 10 "what about three" (by decide) (by decide) (by decide)
     (by decide) (by decide) (by decide)⟩

/-- Claim C5: the speech-duration estimate is
`max(2000, wordCount(text) * 130 + 1000)` milliseconds, where the word
count is the field count of a JavaScript whitespace split; in
particular the estimate of "hello there" is 2000 ms and the estimate of
any 20-word reply is 3600 ms. -/
theorem C5_estimate :
    (∀ text, estimateTtsDurationMs text = max 2000 (wordCount text * 130 + 1000)) ∧
    estimateTtsDurationMs "hello there" = 2000 ∧
    (∀ text, wordCount text = 20 → estimateTtsDurationMs text = 3600) := by
  refine ⟨fun _ => rfl, by decide, fun text h => ?_⟩
  unfold estimateTtsDurationMs
  rw [h]
  decide

/-- Witness for C5 at a concrete 20-word reply. -/
theorem C5_witness :
    estimateTtsDurationMs "w w w w w w w w w w w w w w w w w w w w" = 3600 :=
  C5_estimate.2.2 "w w w w w w w w w w w w w w w w w w w w" (by decide)

/-- Claim C6 fails as stated: the photo reply path speaks the reply
without touching the echo-suppression state or the listen window.  A
photo reply "hello there friend" is spoken on track 2, yet
`recentTtsText` stays "old", `speakingUntil` stays 3 and
`listenWindowUntil` stays 7. -/
theorem C6_counterexample :
    (handlePhoto ⟨7, 3, "old"⟩ true (.reply "hello there friend") true).2.spokenTrack2 =
      ["hello there friend"] ∧
    (handlePhoto ⟨7, 3, "old"⟩ true (.reply "hello there friend") true).1 =
      ⟨7, 3, "old"⟩ := by
  constructor
  · decide
  · decide

/-- Claim C6 amended: before speaking the reply to an accepted
utterance (and only there; the photo reply path updates no state),
Outbound Delivery sets `recentTtsText` to the reply and
`speakingUntil = now + estimate(reply)`, and after the successful speak
at time T it sets `listenWindowUntil = T + 30000`; consequently a
non-echo, non-stop follow-up without a wake word arriving at T + 29000
(once speaking suppression has lapsed) is accepted, and one arriving at
T + 31000 is rejected. -/
theorem C6_amended :
    (∀ (st : ListenState) (now : Nat) (text r : String) (t1 t2 : Nat),
      jsTrim text ≠ "" → stopTest (jsTrim text) = false →
      st.speakingUntil ≤ now → isEcho st.recentTtsText (jsTrim text) = false →
      (wakeTest (jsTrim text) = true ∨ now < st.listenWindowUntil) →
      (handleTranscription st now true text (.reply r) true t1 t2).1 =
        ⟨t2 + LISTEN_WINDOW_MS, t1 + estimateTtsDurationMs r, r⟩) ∧
    (∀ (sp : Nat) (r u : String) (T : Nat),
      jsTrim u ≠ "" → stopTest (jsTrim u) = false →
      isEcho r (jsTrim u) = false → wakeTest (jsTrim u) = false →
      sp ≤ T + 29000 →
      (voiceGate ⟨T + LISTEN_WINDOW_MS, sp, r⟩ (T + 29000) true u).1 =
        .accepted (jsTrim u) ∧
      (voiceGate ⟨T + LISTEN_WINDOW_MS, sp, r⟩ (T + 31000) true u).1 =
        .noWakeNoWindow) := by
  constructor
  · intro st now text r t1 t2 hne hstop hsp hecho hgate
    unfold handleTranscription
    rw [voiceGate_accepted st now text hne hstop hsp hecho hgate]
    rfl
  · intro sp r u T hne hstop hecho hwake hsp
    constructor
    · rw [voiceGate_accepted ⟨T + LISTEN_WINDOW_MS, sp, r⟩ (T + 29000) u hne hstop hsp
        hecho (Or.inr (by
          show T + 29000 < T + LISTEN_WINDOW_MS
          unfold LISTEN_WINDOW_MS
          omega)), hwake]
      simp
    · rw [voiceGate_noWake ⟨T + LISTEN_WINDOW_MS, sp, r⟩ (T + 31000) u hne hstop
        (by show sp ≤ T + 31000; omega) hecho hwake (by
          show T + LISTEN_WINDOW_MS ≤ T + 31000
          unfold LISTEN_WINDOW_MS
          omega)]

/-- Witness for C6 amended at a concrete reply and follow-up. -/
theorem C6_witness :
    (handleTranscription ⟨0, 0, ""⟩ 5 true "Hey Mentra hello" (.reply "Four")
        true 100 200).1 = ⟨200 + LISTEN_WINDOW_MS, 100 + estimateTtsDurationMs "Four", "Four"⟩ ∧
    (voiceGate ⟨1000 + LISTEN_WINDOW_MS, 2100, "Four"⟩ (1000 + 29000) true
        "what about three").1 = .accepted "what about three" ∧
    (voiceGate ⟨1000 + LISTEN_WINDOW_MS, 2100, "Four"⟩ (1000 + 31000) true
        "what about three").1 = .noWakeNoWindow :=
  ⟨C6_amended.1 ⟨0, 0, ""⟩ 5 "Hey Mentra hello" "Four" 100 200 (by decide) (by decide)
     (by decide) (by decide) (Or.inl (by decide)),
   (C6_amended.2 2100 "Four" "what about three" 1000 (by decide) (by decide)
     (by decide) (by decide) (by omega)).1,
   (C6_amended.2 2100 "Four" "what about three" 1000 (by decide) (by decide)
     (by decide) (by decide) (by omega)).2⟩

/-- Claim C7 fails as stated: the delivery callback trims each chunk
before both the emptiness test and the accumulation.  A single
whitespace-only chunk is a non-empty chunk of produced text, so the
claimed collection returns it, but the source returns the no-reply
outcome. -/
theorem C7_counterexample :
    claimCollectedReply [some " "] = some " " ∧
    pipelineReturn [some " "] = none := by
  constructor
  · decide
  · decide

/-- Claim C7 amended: the delivery callback accumulates the trimmed
text of every chunk that is non-blank after trimming, in arrival order,
joined by newlines, and the pipeline returns the accumulation, or the
no-reply outcome if every chunk was absent or whitespace-only. -/
theorem C7_amended (chunks : List (Option String)) :
    pipelineReturn chunks = amendedCollectedReply chunks := by
  unfold pipelineReturn collectedReply amendedCollectedReply
  rw [collect_fold chunks ""]
  cases h : trimmedChunks chunks with
  | nil => rfl
  | cons x xs =>
    have hx : x ≠ "" := mem_trimmedChunks_ne_empty chunks x (h ▸ List.mem_cons_self x xs)
    have key : List.foldl (fun a b => if a = "" then b else a ++ "\n" ++ b) "" (x :: xs) =
        List.foldl (fun a b => a ++ "\n" ++ b) x xs := by
      rw [List.foldl_cons]
      show List.foldl (fun a b => if a = "" then b else a ++ "\n" ++ b) x xs = _
      exact foldl_joinStepIf_eq xs x hx
    rw [key, if_neg (foldl_join_ne_empty xs x hx)]
    rfl

/-- Claim C8 evaluated at the failing input: a rejected
`recordSessionMetaFromInbound` (session-store write failure) escapes
`processInboundMessage` before the dispatch step, so the user does not
receive the agent reply — contradicting the spec requirement that
recording failures are logged and processing continues.  For contrast,
an error reported by `recordInboundSession` through its `onRecordError`
callback is logged and the dispatch still runs. -/
theorem C8_meta_failure_aborts :
    (processInboundMessage ⟨none, false, true, true, [some "hi"]⟩).dispatchRan = false ∧
    (processInboundMessage ⟨none, false, true, true, [some "hi"]⟩).result =
      .error "recordSessionMetaFromInbound" ∧
    (processInboundMessage ⟨some "session write failed", true, true, true,
        [some "hi"]⟩).dispatchRan = true ∧
    (processInboundMessage ⟨some "session write failed", true, true, true,
        [some "hi"]⟩).result = .ok (some "hi") ∧
    (processInboundMessage ⟨some "session write failed", true, true, true,
        [some "hi"]⟩).loggedErrors = ["session write failed"] := by
  refine ⟨rfl, rfl, rfl, rfl, rfl⟩

/-- Claim C9: a processing failure for an accepted utterance is caught
at the utterance boundary wherever it arises — a throwing
`processInboundMessage` (route resolution or dispatch), or a throwing
speak of the reply itself: the session state survives (only the writes
already made before the throw), the device hears the voice apology, and
the handler returns normally instead of propagating; a photo failure is
handled symmetrically (media save, dispatch, or the reply speak) with a
distinct apology text. -/
theorem C9_error_boundary :
    (∀ (st : ListenState) (now : Nat) (text : String) (speakOk : Bool) (t1 t2 : Nat),
      jsTrim text ≠ "" → stopTest (jsTrim text) = false →
      st.speakingUntil ≤ now → isEcho st.recentTtsText (jsTrim text) = false →
      (wakeTest (jsTrim text) = true ∨ now < st.listenWindowUntil) →
      handleTranscription st now true text .threw speakOk t1 t2 =
        (st, { ackSpoken := true,
               dispatched := some (if wakeTest (jsTrim text)
                 then extractCommand (jsTrim text) else jsTrim text),
               spokenTrack2 := [apologyVoice] })) ∧
    (∀ (st : ListenState) (now : Nat) (text r : String) (t1 t2 : Nat),
      jsTrim text ≠ "" → stopTest (jsTrim text) = false →
      st.speakingUntil ≤ now → isEcho st.recentTtsText (jsTrim text) = false →
      (wakeTest (jsTrim text) = true ∨ now < st.listenWindowUntil) →
      handleTranscription st now true text (.reply r) false t1 t2 =
        ({ st with recentTtsText := r, speakingUntil := t1 + estimateTtsDurationMs r },
         { ackSpoken := true,
           dispatched := some (if wakeTest (jsTrim text)
             then extractCommand (jsTrim text) else jsTrim text),
           spokenTrack2 := [r, apologyVoice] })) ∧
    (∀ (st : ListenState) (outcome : PipelineOutcome) (speakOk : Bool),
      handlePhoto st false outcome speakOk = (st, { spokenTrack2 := [apologyPhoto] })) ∧
    (∀ (st : ListenState) (speakOk : Bool),
      handlePhoto st true .threw speakOk =
        (st, { dispatched := some photoPlaceholder, spokenTrack2 := [apologyPhoto] })) ∧
    (∀ (st : ListenState) (r : String),
      handlePhoto st true (.reply r) false =
        (st, { dispatched := some photoPlaceholder, spokenTrack2 := [r, apologyPhoto] })) ∧
    apologyVoice ≠ apologyPhoto := by
  refine ⟨?_, ?_, ?_, ?_, ?_, by decide⟩
  · intro st now text speakOk t1 t2 hne hstop hsp hecho hgate
    unfold handleTranscription
    rw [voiceGate_accepted st now text hne hstop hsp hecho hgate]
  · intro st now text r t1 t2 hne hstop hsp hecho hgate
    unfold handleTranscription
    rw [voiceGate_accepted st now text hne hstop hsp hecho hgate]
    rfl
  · intro st outcome speakOk
    rfl
  · intro st speakOk
    rfl
  · intro st r
    rfl

/-- Witness for C9 at a concrete throwing dispatch and at a concrete
failing reply speak. -/
theorem C9_witness :
    (handleTranscription ⟨0, 0, ""⟩ 3 true "Hey Mentra break things" .threw true 0 0 =
      (⟨0, 0, ""⟩,
       { ackSpoken := true,
         dispatched := some (if wakeTest (jsTrim "Hey Mentra break things")
           then extractCommand (jsTrim "Hey Mentra break things")
           else jsTrim "Hey Mentra break things"),
         spokenTrack2 := [apologyVoice] })) ∧
    (handleTranscription ⟨0, 0, ""⟩ 3 true "Hey Mentra break things" (.reply "Four")
        false 7 0 =
      (⟨0, 7 + estimateTtsDurationMs "Four", "Four"⟩,
       { ackSpoken := true,
         dispatched := some (if wakeTest (jsTrim "Hey Mentra break things")
           then extractCommand (jsTrim "Hey Mentra break things")
           else jsTrim "Hey Mentra break things"),
         spokenTrack2 := ["Four", apologyVoice] })) :=
  ⟨C9_error_boundary.1 ⟨0, 0, ""⟩ 3 "Hey Mentra break things" true 0 0 (by decide)
     (by decide) (by decide) (by decide) (Or.inl (by decide)),
   C9_error_boundary.2.1 ⟨0, 0, ""⟩ 3 "Hey Mentra break things" "Four" 7 0 (by decide)
     (by decide) (by decide) (by decide) (Or.inl (by decide))⟩

/-- Claim C10: every rejection path of the transcription handler leaves
the session ListenState unchanged and produces no acknowledgment, no
dispatch, no playback cancellation and no spoken output — except the
echo rejection, which changes exactly `recentTtsText` to the empty
string and nothing else. -/
theorem C10_rejection_frame :
    (∀ (st : ListenState) (now : Nat) (text : String) (o : PipelineOutcome)
        (s : Bool) (t1 t2 : Nat),
      handleTranscription st now false text o s t1 t2 = (st, noEffects)) ∧
    (∀ (st : ListenState) (now : Nat) (text : String) (o : PipelineOutcome)
        (s : Bool) (t1 t2 : Nat), jsTrim text = "" →
      handleTranscription st now true text o s t1 t2 = (st, noEffects)) ∧
    (∀ (st : ListenState) (now : Nat) (text : String) (o : PipelineOutcome)
        (s : Bool) (t1 t2 : Nat), jsTrim text ≠ "" →
      stopTest (jsTrim text) = false → now < st.speakingUntil →
      handleTranscription st now true text o s t1 t2 = (st, noEffects)) ∧
    (∀ (st : ListenState) (now : Nat) (text : String) (o : PipelineOutcome)
        (s : Bool) (t1 t2 : Nat), jsTrim text ≠ "" →
      stopTest (jsTrim text) = false → st.speakingUntil ≤ now →
      isEcho st.recentTtsText (jsTrim text) = true →
      handleTranscription st now true text o s t1 t2 =
        ({ st with recentTtsText := "" }, noEffects)) ∧
    (∀ (st : ListenState) (now : Nat) (text : String) (o : PipelineOutcome)
        (s : Bool) (t1 t2 : Nat), jsTrim text ≠ "" →
      stopTest (jsTrim text) = false → st.speakingUntil ≤ now →
      isEcho st.recentTtsText (jsTrim text) = false →
      wakeTest (jsTrim text) = false → st.listenWindowUntil ≤ now →
      handleTranscription st now true text o s t1 t2 = (st, noEffects)) := by
  refine ⟨?_, ?_, ?_, ?_, ?_⟩
  · intro st now text o s t1 t2
    unfold handleTranscription
    rw [voiceGate_notFinal st now text]
  · intro st now text o s t1 t2 h
    unfold handleTranscription
    rw [voiceGate_blank st now true text h]
  · intro st now text o s t1 t2 hne hstop h
    unfold handleTranscription
    rw [voiceGate_speaking st now text hne hstop h]
  · intro st now text o s t1 t2 hne hstop hsp hecho
    unfold handleTranscription
    rw [voiceGate_echo st now text hne hstop hsp hecho]
  · intro st now text o s t1 t2 hne hstop hsp hecho hwake hwin
    unfold handleTranscription
    rw [voiceGate_noWake st now text hne hstop hsp hecho hwake hwin]

/-- Witness for C10 across the four hypothesis-bearing rejection
paths at concrete states. -/
theorem C10_witness :
    handleTranscription ⟨9, 9, "x"⟩ 5 true "   " .noReply true 0 0 =
      (⟨9, 9, "x"⟩, noEffects) ∧
    handleTranscription ⟨9, 9, "x"⟩ 5 true "hello world" .noReply true 0 0 =
      (⟨9, 9, "x"⟩, noEffects) ∧
    handleTranscription ⟨9, 2, "four"⟩ 5 true "four" .noReply true 0 0 =
      (⟨9, 2, ""⟩, noEffects) ∧
    handleTranscription ⟨3, 2, ""⟩ 5 true "hello world" .noReply true 0 0 =
      (⟨3, 2, ""⟩, noEffects) :=
  ⟨C10_rejection_frame.2.1 ⟨9, 9, "x"⟩ 5 "   " .noReply true 0 0 (by decide),
   C10_rejection_frame.2.2.1 ⟨9, 9, "x"⟩ 5 "hello world" .noReply true 0 0 (by decide)
     (by decide) (by decide),
   C10_rejection_frame.2.2.2.1 ⟨9, 2, "four"⟩ 5 "four" .noReply true 0 0 (by decide)
     (by decide) (by decide) (by decide),
   C10_rejection_frame.2.2.2.2 ⟨3, 2, ""⟩ 5 "hello world" .noReply true 0 0 (by decide)
     (by decide) (by decide) (by decide) (by decide) (by decide)⟩

end MentraBridge
